import Mathlib

/-!
Shallow embedding of the WaylandInputWindow core (src/main.cpp, src/utilities.h and
the revisions under src/unnamed; src/unnamed/part_003 holds the latest revision of
main.cpp and is taken as the authority — main.cpp agrees with it on everything
formalised here).

Modelling conventions:
* IEEE-754 `double` values are modelled as exact rationals (`ℚ`);
* C pointers (`wl_pointer*`, `wl_surface*`, `wl_callback*`) and raw protocol enum
  codes are modelled as naturals;
* a `WLResourceWrapper<wl_pointer*>` that may hold no resource is an `Option ℕ`
  (utilities.h lines 89-99: `ptr == wrapper` means
  `wrapper.hasResource() && ptr == wrapper.getResource()`);
* `std::optional` is `Option`;
* `std::bitset<32>` (`buttonsPressedState`) is the `Finset ℕ` of the indices of the
  set bits (`test` is membership, `count` is `card`, `reset` is `∅`);
* C++ `int`/`int64_t` arithmetic is modelled on `ℤ` (`Int.tdiv` is C++'s truncating
  `/`), `std::size_t`/`uint32_t` arithmetic on `ℕ`.
-/

namespace WaylandInputWindow

/-- `ContentState` (part_003 lines 293-318): pan offset, zoom, zoom center. -/
structure ContentState where
  viewportOffsetX : ℚ
  viewportOffsetY : ℚ
  viewportZoom : ℚ
  viewportZoomCenterLocalX : ℚ
  viewportZoomCenterLocalY : ℚ
deriving DecidableEq

/-- The state `ContentState contentState;` is constructed with at main entry
(part_003 line 332; field initialisers at lines 295-303). -/
def initialContentState : ContentState :=
  { viewportOffsetX := 0
  , viewportOffsetY := 0
  , viewportZoom := 1
  , viewportZoomCenterLocalX := 0
  , viewportZoomCenterLocalY := 0 }

/-- `ContentState::movedFor` (part_003 lines 1917-1926). -/
def ContentState.movedFor (s : ContentState) (offsetX offsetY : ℚ) : ContentState :=
  { viewportOffsetX := s.viewportOffsetX + offsetX
  , viewportOffsetY := s.viewportOffsetY + offsetY
  , viewportZoom := s.viewportZoom
  , viewportZoomCenterLocalX := s.viewportZoomCenterLocalX
  , viewportZoomCenterLocalY := s.viewportZoomCenterLocalY }

/-- `operator==(const ContentState&, const ContentState&)` (part_003 lines
1928-1935): field-wise comparison. -/
def contentStateEq (lhs rhs : ContentState) : Bool :=
  decide (lhs.viewportOffsetX = rhs.viewportOffsetX) &&
  decide (lhs.viewportOffsetY = rhs.viewportOffsetY) &&
  decide (lhs.viewportZoom = rhs.viewportZoom) &&
  decide (lhs.viewportZoomCenterLocalX = rhs.viewportZoomCenterLocalX) &&
  decide (lhs.viewportZoomCenterLocalY = rhs.viewportZoomCenterLocalY)

/-- `wl_pointer_event_frame_types::Axes::Axis` (part_003 lines 53-71). -/
structure Axis where
  launchedTimestampMs : Option ℕ
  value : Option ℚ
  stoppedTimestampMs : Option ℕ
  one120thFractionsOfWheelStep : Option ℤ
  relativeDirectionType : Option ℕ
deriving DecidableEq

/-- `Axis{}`: all optionals empty. -/
def emptyAxis : Axis :=
  { launchedTimestampMs := none
  , value := none
  , stoppedTimestampMs := none
  , one120thFractionsOfWheelStep := none
  , relativeDirectionType := none }

/-- `wl_pointer_event_frame_types::Axes` (part_003 lines 51-78). -/
structure Axes where
  horizontal : Option Axis
  vertical : Option Axis
  axisSource : Option ℕ
deriving DecidableEq

/-- `Axes{}`: all optionals empty. -/
def emptyAxes : Axes :=
  { horizontal := none, vertical := none, axisSource := none }

/-- The variant payload of `WLAppCtx::PointingDevice::EventFrame::info`
(part_003 lines 242-248): the tagged union over the five sub-event shapes of
`wl_pointer_event_frame_types` (lines 20-79). Button `state` keeps the raw
`wl_pointer_button_state` code. -/
inductive FrameInfo
  | enter (evSerial : ℕ) (surfaceEntered : ℕ) (posX posY : ℚ)
  | leave (evSerial : ℕ) (surfaceLeft : ℕ)
  | motion (evTimestampMs : ℕ) (surfaceLocalX surfaceLocalY : ℚ)
  | button (evSerial evTimestampMs : ℕ) (code : ℕ) (state : ℕ)
  | axes (a : Axes)
deriving DecidableEq

/-- `WLAppCtx::PointingDevice::EventFrame` (part_003 lines 238-249). -/
structure EventFrame where
  sourceDev : ℕ
  info : FrameInfo
deriving DecidableEq

/-- The application state touched by the pointer path: the fields of
`WLAppCtx::PointingDevice` (part_003 lines 212-251) plus the pieces of `WLAppCtx`
and `main` the handlers read or write (`mainWindow.surface`, blanket
`mainWindow.mustBeRedrawn`, the `ContentState` captured by `PointingDeviceListener`). -/
structure AppState where
  eventFrame : Option EventFrame
  positionOnMainWindowSurface : Option (ℚ × ℚ)
  buttonsPressedState : Finset ℕ
  wlDevice : Option ℕ
  mainWindowSurface : ℕ
  contentState : ContentState
  mustBeRedrawn : Bool
deriving DecidableEq

/-- `wl_pointer_axis::WL_POINTER_AXIS_VERTICAL_SCROLL` (wayland-client protocol). -/
def WL_POINTER_AXIS_VERTICAL_SCROLL : ℕ := 0
/-- `wl_pointer_axis::WL_POINTER_AXIS_HORIZONTAL_SCROLL` (wayland-client protocol). -/
def WL_POINTER_AXIS_HORIZONTAL_SCROLL : ℕ := 1
/-- `wl_pointer_button_state::WL_POINTER_BUTTON_STATE_PRESSED` (wayland-client protocol). -/
def WL_POINTER_BUTTON_STATE_PRESSED : ℕ := 1

/-- `WLAppCtx::PointingDevice::IDX_LMB` (part_003 line 229). -/
def IDX_LMB : ℕ := 0
/-- `WLAppCtx::PointingDevice::IDX_RMB` (part_003 line 230). -/
def IDX_RMB : ℕ := 1
/-- `WLAppCtx::PointingDevice::IDX_MMB` (part_003 line 232). -/
def IDX_MMB : ℕ := 2
/-- `WLAppCtx::PointingDevice::IDX_OTHERS_BEGIN` (part_003 line 233). -/
def IDX_OTHERS_BEGIN : ℕ := 3

/-- The `linuxButton -> buttonIdx` switch of `handleFrame(Button)` (part_003 lines
1304-1330). The numerals are the `linux/input-event-codes.h` values:
`BTN_LEFT`=0x110=272, `BTN_RIGHT`=273, `BTN_MIDDLE`=274, `BTN_SIDE`=275,
`BTN_EXTRA`=276, `BTN_FORWARD`=277, `BTN_BACK`=278, `BTN_TASK`=279,
`BTN_0`=0x100=256 … `BTN_9`=265. Unknown codes give -1. -/
def buttonIdxFor (linuxButton : ℕ) : ℤ :=
  if linuxButton = 272 then (IDX_LMB : ℤ)
  else if linuxButton = 273 then (IDX_RMB : ℤ)
  else if linuxButton = 274 then (IDX_MMB : ℤ)
  else if linuxButton = 275 then (IDX_OTHERS_BEGIN : ℤ) + 0
  else if linuxButton = 276 then (IDX_OTHERS_BEGIN : ℤ) + 1
  else if linuxButton = 277 then (IDX_OTHERS_BEGIN : ℤ) + 2
  else if linuxButton = 278 then (IDX_OTHERS_BEGIN : ℤ) + 3
  else if linuxButton = 279 then (IDX_OTHERS_BEGIN : ℤ) + 4
  else if linuxButton = 256 then (IDX_OTHERS_BEGIN : ℤ) + 5
  else if linuxButton = 257 then (IDX_OTHERS_BEGIN : ℤ) + 6
  else if linuxButton = 258 then (IDX_OTHERS_BEGIN : ℤ) + 7
  else if linuxButton = 259 then (IDX_OTHERS_BEGIN : ℤ) + 8
  else if linuxButton = 260 then (IDX_OTHERS_BEGIN : ℤ) + 9
  else if linuxButton = 261 then (IDX_OTHERS_BEGIN : ℤ) + 10
  else if linuxButton = 262 then (IDX_OTHERS_BEGIN : ℤ) + 11
  else if linuxButton = 263 then (IDX_OTHERS_BEGIN : ℤ) + 12
  else if linuxButton = 264 then (IDX_OTHERS_BEGIN : ℤ) + 13
  else if linuxButton = 265 then (IDX_OTHERS_BEGIN : ℤ) + 14
  else -1

/-! ### The InputFrame interpreter: `PointingDeviceListener::handleFrame` overloads -/

/-- The five `PointingDeviceListener::handleFrame` overloads (part_003 lines
1223-1375), dispatched by `std::visit` over the frame variant (line 884-886). -/
def handleFrame (s : AppState) : FrameInfo → AppState
  | .enter _evSerial surfaceEntered posX posY =>
      -- part_003 lines 1223-1244
      if surfaceEntered ≠ s.mainWindowSurface then s
      else
        { s with positionOnMainWindowSurface := some (posX, posY)
               , buttonsPressedState := ∅ }
  | .leave _evSerial surfaceLeft =>
      -- part_003 lines 1246-1262
      if surfaceLeft ≠ s.mainWindowSurface then s
      else
        { s with buttonsPressedState := ∅
               , positionOnMainWindowSurface := none }
  | .motion _evTimestampMs x y =>
      -- part_003 lines 1264-1300
      let s1 := s.positionOnMainWindowSurface.elim s (fun current =>
        if IDX_LMB ∈ s.buttonsPressedState ∧ s.buttonsPressedState.card = 1 then
          let movingOffsetX := x - current.1
          let movingOffsetY := y - current.2
          if movingOffsetX ≠ 0 ∨ movingOffsetY ≠ 0 then
            -- Subtracting is intended for the natural dragging effect
            { s with contentState := s.contentState.movedFor (-movingOffsetX) (-movingOffsetY)
                   , mustBeRedrawn := true }
          else s
        else s)
      { s1 with positionOnMainWindowSurface := some (x, y) }
  | .button _evSerial _evTimestampMs code state =>
      -- part_003 lines 1302-1351
      let buttonIdx := buttonIdxFor code
      if buttonIdx < 0 ∨ 32 ≤ buttonIdx then s
      else if state = WL_POINTER_BUTTON_STATE_PRESSED then
        { s with buttonsPressedState := insert buttonIdx.toNat s.buttonsPressedState }
      else
        { s with buttonsPressedState := s.buttonsPressedState.erase buttonIdx.toNat }
  | .axes a =>
      -- part_003 lines 1353-1375
      let movingOffsetX := a.horizontal.elim 0 (fun ax => ax.value.getD 0)
      let movingOffsetY := a.vertical.elim 0 (fun ax => ax.value.getD 0)
      if movingOffsetX ≠ 0 ∨ movingOffsetY ≠ 0 then
        { s with contentState := s.contentState.movedFor movingOffsetX movingOffsetY
               , mustBeRedrawn := true }
      else s

/-! ### The frame aggregator: the `wl_pointer` listener callbacks -/

/-- `PointingDeviceListener::onFrame` (part_003 lines 853-887). The second
component records the frame handed to the interpreter (`std::visit` at lines
884-886), `none` when the interpreter is not invoked. The device comparison at
line 877 goes through `operator!=(T, WLResourceWrapper<T>)` (utilities.h lines
89-111), hence `s.wlDevice ≠ some sourceDev`. -/
def onFrame (s : AppState) (pd : ℕ) : AppState × Option FrameInfo :=
  s.eventFrame.elim (s, none) (fun evFrame =>
    let s1 : AppState := { s with eventFrame := none }
    if pd ≠ evFrame.sourceDev then (s1, none)
    else if s.wlDevice ≠ some evFrame.sourceDev then (s1, none)
    else (handleFrame s1 evFrame.info, some evFrame.info))

/-- `PointingDeviceListener::onEnter` (part_003 lines 890-925). -/
def onEnter (s : AppState) (pd evSerial enteredSurface : ℕ) (x y : ℚ) : AppState :=
  if s.eventFrame.isSome then s
  else { s with eventFrame := some ⟨pd, .enter evSerial enteredSurface x y⟩ }

/-- `PointingDeviceListener::onLeave` (part_003 lines 928-956). -/
def onLeave (s : AppState) (pd evSerial surfaceLeft : ℕ) : AppState :=
  if s.eventFrame.isSome then s
  else { s with eventFrame := some ⟨pd, .leave evSerial surfaceLeft⟩ }

/-- `PointingDeviceListener::onMotion` (part_003 lines 959-992). -/
def onMotion (s : AppState) (pd evTimestampMs : ℕ) (x y : ℚ) : AppState :=
  if s.eventFrame.isSome then s
  else { s with eventFrame := some ⟨pd, .motion evTimestampMs x y⟩ }

/-- `PointingDeviceListener::onButton` (part_003 lines 995-1027). -/
def onButton (s : AppState) (pd evSerial evTimestampMs button state : ℕ) : AppState :=
  if s.eventFrame.isSome then s
  else { s with eventFrame := some ⟨pd, .button evSerial evTimestampMs button state⟩ }

/-- `PointingDeviceListener::getAxesFramePtrOrNull` (part_003 lines 1378-1398):
yields the source device and `Axes` payload of the pending frame, emplacing a fresh
`Axes{}` frame (source device `pd`) when none is pending, and `none` when the
pending frame holds a non-axes variant. The caller writes the updated payload back
through the returned pointer, modelled by `putAxes`. -/
def axesSlot (s : AppState) (pd : ℕ) : Option (ℕ × Axes) :=
  s.eventFrame.elim (some (pd, emptyAxes)) (fun ef =>
    match ef.info with
    | .axes a => some (ef.sourceDev, a)
    | _ => none)

/-- Writing an `Axes` payload back through the pointer returned by
`getAxesFramePtrOrNull`: the pending frame becomes (or stays) an axes frame of the
same source device. -/
def putAxes (s : AppState) (dev : ℕ) (a : Axes) : AppState :=
  { s with eventFrame := some ⟨dev, .axes a⟩ }

/-- The `(axisType == WL_POINTER_AXIS_VERTICAL_SCROLL) ? axesFrame.vertical
: axesFrame.horizontal` selections (part_003 lines 1053-1055, 1121-1123, 1182-1184). -/
def getAxis (a : Axes) (axisType : ℕ) : Option Axis :=
  if axisType = WL_POINTER_AXIS_VERTICAL_SCROLL then a.vertical else a.horizontal

/-- Writing the selected axis back (the in-place mutation through `axisToHandle`). -/
def setAxis (a : Axes) (axisType : ℕ) (ax : Axis) : Axes :=
  if axisType = WL_POINTER_AXIS_VERTICAL_SCROLL then { a with vertical := some ax }
  else { a with horizontal := some ax }

/-- `PointingDeviceListener::onAxis` (part_003 lines 1030-1071). An absent target
axis is emplaced as `Axis{}` before writing; a target axis whose `value` is already
set makes the sub-event be dropped (second write dropped, first wins). -/
def onAxis (s : AppState) (pd evTimestampMs axisType : ℕ) (value : ℚ) : AppState :=
  (axesSlot s pd).elim s (fun da =>
    let axisToHandle := (getAxis da.2 axisType).getD emptyAxis
    if axisToHandle.value.isSome = true then putAxes s da.1 da.2
    else putAxes s da.1 (setAxis da.2 axisType
      { axisToHandle with launchedTimestampMs := some evTimestampMs, value := some value }))

/-- `PointingDeviceListener::onAxisSource` (part_003 lines 1074-1096). -/
def onAxisSource (s : AppState) (pd axisSource : ℕ) : AppState :=
  (axesSlot s pd).elim s (fun da =>
    if da.2.axisSource.isSome = true then putAxes s da.1 da.2
    else putAxes s da.1 { da.2 with axisSource := some axisSource })

/-- `PointingDeviceListener::onAxisStop` (part_003 lines 1103-1138). -/
def onAxisStop (s : AppState) (pd evTimestampMs axisStopped : ℕ) : AppState :=
  (axesSlot s pd).elim s (fun da =>
    let axisToHandle := (getAxis da.2 axisStopped).getD emptyAxis
    if axisToHandle.stoppedTimestampMs.isSome = true then putAxes s da.1 da.2
    else putAxes s da.1 (setAxis da.2 axisStopped
      { axisToHandle with stoppedTimestampMs := some evTimestampMs }))

/-- `PointingDeviceListener::onAxisValue120` (part_003 lines 1164-1199). -/
def onAxisValue120 (s : AppState) (pd axisType : ℕ) (one120thFractionsOf1Step : ℤ) : AppState :=
  (axesSlot s pd).elim s (fun da =>
    let axisToHandle := (getAxis da.2 axisType).getD emptyAxis
    if axisToHandle.one120thFractionsOfWheelStep.isSome = true then putAxes s da.1 da.2
    else putAxes s da.1 (setAxis da.2 axisType
      { axisToHandle with one120thFractionsOfWheelStep := some one120thFractionsOf1Step }))

/-- `PointingDeviceListener::onAxisDiscrete` (part_003 lines 1145-1158): delegates
to `onAxisValue120` with `discreteNumberOfSteps * 120`. -/
def onAxisDiscrete (s : AppState) (pd axisType : ℕ) (discreteNumberOfSteps : ℤ) : AppState :=
  onAxisValue120 s pd axisType (discreteNumberOfSteps * 120)

/-! ### The checkerboard renderer: cell-index function -/

/-- `cellSideBasicSize` (part_003 line 1950). -/
def cellSideBasicSize : ℤ := 60

/-- The per-axis cell-index computation of `renderMainWindow` (part_003 lines
1994-1999; identically src/main.cpp lines 953-958):
`(v > 0) ? (v / cellSideBasicSize) : -(1 + (-v / cellSideBasicSize))` on `int64_t`;
C++ `/` truncates toward zero, which is `Int.tdiv`. -/
def srcCellIndexFor (v : ℤ) : ℤ :=
  if 0 < v then Int.tdiv v cellSideBasicSize
  else -(1 + Int.tdiv (-v) cellSideBasicSize)

/-! ### The double-buffered pixel store: `WLAppCtx::mainWindow` -/

/-- `WLAppCtx::mainWindow.width` (part_003 line 111). -/
def surfaceWidth : ℕ := 800
/-- `WLAppCtx::mainWindow.height` (part_003 line 112). -/
def surfaceHeight : ℕ := 600
/-- `WLAppCtx::mainWindow.bytesPerPixel` (part_003 line 114). -/
def bytesPerPixel : ℕ := 4

/-- `WLAppCtx::mainWindow::getSurfaceBufferOffsetForIdx` (part_003 lines 123-126):
`idx * width * bytesPerPixel * height`. -/
def getSurfaceBufferOffsetForIdx (idx : ℕ) : ℕ :=
  idx * surfaceWidth * bytesPerPixel * surfaceHeight

/-- The byte offsets into `surfaceSharedBuffer` written by one call of
`WLAppCtx::mainWindow::drawVia` (part_003 lines 136-175), in loop order. The early
return at lines 146-149 fires when `rectX >= width || rectY >= height`;
`std::clamp<std::size_t>(v, 0, hi)` at lines 150-151 is `min v hi` (the lower bound
0 is vacuous on `std::size_t`); each visited pixel writes the four bytes at
`pixelOffset + 0 .. pixelOffset + 3` (b, g, r at lines 166-171, the alpha forced at
line 172). -/
def drawViaWrittenOffsets (pendingBufferIdx rectX rectY rectWidth rectHeight : ℕ) : List ℕ :=
  if surfaceWidth ≤ rectX ∨ surfaceHeight ≤ rectY then []
  else
    let rectW := min rectWidth (surfaceWidth - rectX)
    let rectH := min rectHeight (surfaceHeight - rectY)
    let bufferToWriteOffset := getSurfaceBufferOffsetForIdx pendingBufferIdx
    (List.range rectH).flatMap (fun dy =>
      let y := rectY + dy
      let rowOffset := bufferToWriteOffset + y * surfaceWidth * bytesPerPixel
      (List.range rectW).flatMap (fun dx =>
        let x := rectX + dx
        let pixelOffset := rowOffset + x * bytesPerPixel
        [pixelOffset, pixelOffset + 1, pixelOffset + 2, pixelOffset + 3]))

/-! ### Process exit codes -/

/-- The causes of process termination the spec distinguishes. -/
inductive TermCause
  | noCompositor
  | noShm
  | noSeat
  | fatalSystemError
  | fatalGenericError
  | fatalUnknownError
  | normalExit
deriving DecidableEq

/-- Which catch handler of `main` (part_003 lines 1897-1911) an escaping exception
reaches: `std::system_error` first, then `std::exception`, then `...`. -/
inductive CaughtKind
  | systemError
  | genericError
  | unknownError
deriving DecidableEq

/-- How the `try` block of `main` ends for each termination cause:
-- `noCompositor`: `return 4` (part_003 lines 492-496);
-- `noShm`: `return 5` (lines 547-551);
-- `noSeat`: `throw std::runtime_error{"Found no wl_seat objects"}` (lines 710-711);
   `std::runtime_error` derives from `std::exception` but not from
   `std::system_error`, so it reaches the `catch (const std::exception&)` handler;
-- a fatal system error: a thrown `std::system_error`;
-- a fatal generic error: a thrown non-system `std::exception`;
-- a fatal unknown error: a thrown object of any other type;
-- normal exit: the loop ends and control reaches `return 0` (line 1913). -/
inductive MainOutcome
  | returned (code : ℕ)
  | threw (e : CaughtKind)
deriving DecidableEq

def tryBlockOutcome : TermCause → MainOutcome
  | .noCompositor => .returned 4
  | .noShm => .returned 5
  | .noSeat => .threw .genericError
  | .fatalSystemError => .threw .systemError
  | .fatalGenericError => .threw .genericError
  | .fatalUnknownError => .threw .unknownError
  | .normalExit => .returned 0

/-- The catch handlers of `main` (part_003 lines 1897-1911): `return 1`, `return 2`,
`return 3` respectively. -/
def catchCode : CaughtKind → ℕ
  | .systemError => 1
  | .genericError => 2
  | .unknownError => 3

/-- The process exit code for each termination cause. -/
def processExitCode (c : TermCause) : ℕ :=
  match tryBlockOutcome c with
  | .returned code => code
  | .threw e => catchCode e

/-! ### The render loop / scheduler state machine -/

/-- The state the redraw discipline of `main` lives in: `mainWindow.mustBeRedrawn`
and `mainWindow.readyToBeRedrawn` (part_003 lines 183-185),
`MainWindowRedrawHintListener::pendingCallback` (line 1835, `none` = `nullptr`),
`mainWindow.pendingBufferIdx` (line 121), and the loop locals `contentState` and
`lastRenderedState` (lines 332, 1855). -/
structure RenderLoopState where
  contentState : ContentState
  lastRenderedState : ContentState
  mustBeRedrawn : Bool
  readyToBeRedrawn : Bool
  pendingCallback : Option ℕ
  pendingBufferIdx : ℕ
deriving DecidableEq

/-- The state on entering the event loop: `mustBeRedrawn = readyToBeRedrawn = true`
(part_003 lines 617-618), `pendingCallback = nullptr` (line 1835),
`pendingBufferIdx = 0` (line 1853), `lastRenderedState = contentState` (line 1855). -/
def initRenderLoopState : RenderLoopState :=
  { contentState := initialContentState
  , lastRenderedState := initialContentState
  , mustBeRedrawn := true
  , readyToBeRedrawn := true
  , pendingCallback := none
  , pendingBufferIdx := 0 }

/-- The atomic events acting on `RenderLoopState`:
-- `dispatched c m`: one `wl_display_dispatch` call (part_003 line 1893) ran input
   handlers; they may replace `contentState` and may set (never clear)
   `mustBeRedrawn` (lines 1292, 1373);
-- `loopIteration cb`: the redraw branch of the loop body (lines 1860-1890), with
   `cb` the `wl_callback` handle returned by `wl_surface_frame`;
-- `surfaceFrameSignal cb`: `MainWindowRedrawHintListener::onSurfaceFrame` (lines
   1837-1847) for callback handle `cb`. -/
inductive RenderEvent
  | dispatched (newContent : ContentState) (redrawRequested : Bool)
  | loopIteration (newCallback : ℕ)
  | surfaceFrameSignal (callback : ℕ)

/-- One step of the render-scheduling state machine. The redraw branch (part_003
lines 1860-1890) fires when `(mustBeRedrawn || contentHasChanged) &&
readyToBeRedrawn`; it clears `mustBeRedrawn`, clears `readyToBeRedrawn`, registers
exactly one new frame callback, toggles `pendingBufferIdx`, and records
`lastRenderedState = contentState`. `onSurfaceFrame` restores readiness only when
the signalled callback is the registered one. -/
def renderStep (s : RenderLoopState) : RenderEvent → RenderLoopState
  | .dispatched c m =>
      { s with contentState := c, mustBeRedrawn := s.mustBeRedrawn || m }
  | .loopIteration cb =>
      if (s.mustBeRedrawn = true ∨ s.contentState ≠ s.lastRenderedState) ∧
          s.readyToBeRedrawn = true then
        { s with mustBeRedrawn := false
               , readyToBeRedrawn := false
               , pendingCallback := some cb
               , pendingBufferIdx := (s.pendingBufferIdx + 1) % 2
               , lastRenderedState := s.contentState }
      else s
  | .surfaceFrameSignal cb =>
      if some cb = s.pendingCallback then
        { s with readyToBeRedrawn := true, pendingCallback := none }
      else s

/-- The states of the event loop reachable from `initRenderLoopState`. -/
inductive ReachableRL : RenderLoopState → Prop
  | init : ReachableRL initRenderLoopState
  | step (s : RenderLoopState) (e : RenderEvent) :
      ReachableRL s → ReachableRL (renderStep s e)

/-! ### Concrete sample states (used by the witness theorems) -/

/-- A pointer state with a pending Motion frame from device 1. -/
def sampleMotionPending : AppState :=
  { eventFrame := some ⟨1, .motion 5 3 4⟩
  , positionOnMainWindowSurface := none
  , buttonsPressedState := ∅
  , wlDevice := some 1
  , mainWindowSurface := 10
  , contentState := initialContentState
  , mustBeRedrawn := false }

/-- A pointer state with a pending Axes frame from device 1 whose horizontal axis
already has every mergeable field set and whose source is set. -/
def sampleAxesPending : AppState :=
  { eventFrame := some ⟨1,
      .axes { horizontal := some
                { launchedTimestampMs := some 7
                , value := some 2
                , stoppedTimestampMs := some 8
                , one120thFractionsOfWheelStep := some 120
                , relativeDirectionType := none }
            , vertical := none
            , axisSource := some 1 }⟩
  , positionOnMainWindowSurface := none
  , buttonsPressedState := ∅
  , wlDevice := some 1
  , mainWindowSurface := 10
  , contentState := initialContentState
  , mustBeRedrawn := false }

/-- The scenario state of spec section 8: pointer over the main window at
(100, 200), only the primary button pressed, no pending frame. -/
def sampleDragReady : AppState :=
  { eventFrame := none
  , positionOnMainWindowSurface := some (100, 200)
  , buttonsPressedState := {0}
  , wlDevice := some 1
  , mainWindowSurface := 10
  , contentState := initialContentState
  , mustBeRedrawn := false }

/-- A pointer state with no pending frame and no prior position. -/
def sampleIdle : AppState :=
  { eventFrame := none
  , positionOnMainWindowSurface := none
  , buttonsPressedState := ∅
  , wlDevice := some 1
  , mainWindowSurface := 10
  , contentState := initialContentState
  , mustBeRedrawn := false }

/-! ## Theorems -/

/-- Claim C1, counterexample: the cell-index function is not floor division at the
inputs `0` and `-60`. The claim expects `0 ↦ 0` and `-60 ↦ -1`; the code's idiom
`(v > 0) ? v/60 : -(1 + (-v)/60)` sends `0` to `-(1 + 0) = -1` and `-60` to
`-(1 + 1) = -2`. -/
theorem srcCellIndexFor_not_floorDiv :
    srcCellIndexFor 0 = -1 ∧ srcCellIndexFor (-60) = -2 ∧
    ¬ srcCellIndexFor 0 = 0 ∧ ¬ srcCellIndexFor (-60) = -1 := by
  decide

/-- Claim C1, amended: the renderer's cell-index function with cell size 60 equals
floor division of `v` by 60 (`Int.fdiv`; equal to euclidean `v / 60` since the
divisor is positive) for every `v` that is positive or not a multiple of 60, and
equals floor division minus one at every non-positive multiple of 60; in
particular the inputs -1, 0, 59, 60, -60, -61 map to -1, -1, 0, 1, -2, -2. -/
theorem srcCellIndexFor_floorDiv_correction :
    (∀ v : ℤ, srcCellIndexFor v =
        (if v ≤ 0 ∧ cellSideBasicSize ∣ v then Int.fdiv v cellSideBasicSize - 1
         else Int.fdiv v cellSideBasicSize)) ∧
    srcCellIndexFor (-1) = -1 ∧ srcCellIndexFor 0 = -1 ∧ srcCellIndexFor 59 = 0 ∧
    srcCellIndexFor 60 = 1 ∧ srcCellIndexFor (-60) = -2 ∧ srcCellIndexFor (-61) = -2 := by
  refine ⟨?_, by decide, by decide, by decide, by decide, by decide, by decide⟩
  intro v
  have hb : (0 : ℤ) ≤ 60 := by norm_num
  simp only [srcCellIndexFor, cellSideBasicSize, Int.fdiv_eq_ediv _ hb]
  by_cases h : 0 < v
  · rw [if_pos h, Int.tdiv_eq_ediv (by omega) hb, if_neg (by omega)]
  · rw [if_neg h, Int.tdiv_eq_ediv (by omega) hb]
    split_ifs with hc <;> omega

/-- Claim C7: `movedFor` accumulates additively — `s.movedFor(a,b).movedFor(c,d)`
is field-wise equal (the source's `operator==`) to `s.movedFor(a+c, b+d)` — and
`movedFor` changes only the offset fields, leaving zoom and zoom center unchanged. -/
theorem movedFor_accumulates :
    ∀ (s : ContentState) (a b c d : ℚ),
      contentStateEq ((s.movedFor a b).movedFor c d) (s.movedFor (a + c) (b + d)) = true ∧
      (s.movedFor a b).viewportZoom = s.viewportZoom ∧
      (s.movedFor a b).viewportZoomCenterLocalX = s.viewportZoomCenterLocalX ∧
      (s.movedFor a b).viewportZoomCenterLocalY = s.viewportZoomCenterLocalY ∧
      (s.movedFor a b).viewportOffsetX = s.viewportOffsetX + a ∧
      (s.movedFor a b).viewportOffsetY = s.viewportOffsetY + b := by
  intro s a b c d
  simp [contentStateEq, ContentState.movedFor, add_assoc]

/-- Claim C8, counterexample: the "no pointing/input seat found" condition throws
`std::runtime_error`, which the `catch (const std::exception&)` handler maps to
exit code 2 — the same code as a fatal generic error, so the two causes are not
distinguished as the claim requires. -/
theorem noSeat_shares_generic_exit_code :
    processExitCode TermCause.noSeat = 2 ∧
    processExitCode TermCause.fatalGenericError = 2 ∧
    processExitCode TermCause.noSeat = processExitCode TermCause.fatalGenericError := by
  decide

/-- Claim C8, amended: "no compositor found" (4) and "no shared-memory service
found" (5) terminate with exit codes distinct from each other, from the fatal
system/generic/unknown codes (1/2/3) and from the normal exit code (0); but "no
pointing/input seat found" terminates with exit code 2, identical to the fatal
generic error code. -/
theorem exitCode_distinction_correction :
    List.Pairwise (fun a b => a ≠ b)
      [processExitCode TermCause.noCompositor, processExitCode TermCause.noShm,
       processExitCode TermCause.fatalSystemError, processExitCode TermCause.fatalGenericError,
       processExitCode TermCause.fatalUnknownError, processExitCode TermCause.normalExit] ∧
    processExitCode TermCause.noSeat = processExitCode TermCause.fatalGenericError := by
  decide

/-- Claim C9: every byte offset written by `drawVia` lies inside the pending
sub-buffer `[pendingBufferIdx*width*4*height, (pendingBufferIdx+1)*width*4*height)`,
and a rectangle starting at `rectX ≥ width` or `rectY ≥ height` writes nothing. -/
theorem drawVia_writes_stay_in_pending_subbuffer :
    (∀ (pendingBufferIdx rectX rectY rectWidth rectHeight o : ℕ),
        o ∈ drawViaWrittenOffsets pendingBufferIdx rectX rectY rectWidth rectHeight →
        getSurfaceBufferOffsetForIdx pendingBufferIdx ≤ o ∧
        o < getSurfaceBufferOffsetForIdx (pendingBufferIdx + 1)) ∧
    (∀ (pendingBufferIdx rectX rectY rectWidth rectHeight : ℕ),
        surfaceWidth ≤ rectX ∨ surfaceHeight ≤ rectY →
        drawViaWrittenOffsets pendingBufferIdx rectX rectY rectWidth rectHeight = []) := by
  constructor
  · intro idx rectX rectY rectW rectH o ho
    unfold drawViaWrittenOffsets at ho
    by_cases hg : surfaceWidth ≤ rectX ∨ surfaceHeight ≤ rectY
    · rw [if_pos hg] at ho
      simp at ho
    · rw [if_neg hg] at ho
      push_neg at hg
      obtain ⟨hx, hy⟩ := hg
      simp only [List.mem_flatMap, List.mem_range, List.mem_cons,
        List.not_mem_nil, or_false] at ho
      obtain ⟨dy, hdy, dx, hdx, hmem⟩ := ho
      simp only [surfaceWidth, surfaceHeight, bytesPerPixel,
        getSurfaceBufferOffsetForIdx] at hx hy hdy hdx hmem ⊢
      rcases hmem with h | h | h | h <;> omega
  · intro idx rectX rectY rectW rectH hg
    unfold drawViaWrittenOffsets
    rw [if_pos hg]

/-- Witness for C9 at concrete inputs: the offset 2 is written by the 1x1 rectangle
at the origin of sub-buffer 0 and lies inside that sub-buffer; a rectangle starting
at `rectX = width` writes nothing. -/
theorem drawVia_writes_stay_in_pending_subbuffer_witness :
    (getSurfaceBufferOffsetForIdx 0 ≤ 2 ∧ 2 < getSurfaceBufferOffsetForIdx 1) ∧
    drawViaWrittenOffsets 1 800 0 5 5 = [] :=
  ⟨drawVia_writes_stay_in_pending_subbuffer.1 0 0 0 1 1 2 (by decide),
   drawVia_writes_stay_in_pending_subbuffer.2 1 800 0 5 5 (by decide)⟩

/-- Helper: `getAxesFramePtrOrNull` yields `none` exactly when the pending frame
holds a non-axes variant. -/
theorem axesSlot_of_nonAxes (s : AppState) (pd : ℕ) (ef : EventFrame)
    (h : s.eventFrame = some ef) (hna : ∀ a : Axes, ef.info ≠ .axes a) :
    axesSlot s pd = none := by
  obtain ⟨dev, info⟩ := ef
  cases info <;> simp_all [axesSlot]

/-- Helper: with a pending axes frame, `getAxesFramePtrOrNull` yields its source
device and payload. -/
theorem axesSlot_of_axes (s : AppState) (pd dev : ℕ) (a : Axes)
    (h : s.eventFrame = some ⟨dev, .axes a⟩) :
    axesSlot s pd = some (dev, a) := by
  simp [axesSlot, h]

/-- Helper: writing the pending axes frame back unchanged is the identity. -/
theorem putAxes_self (s : AppState) (dev : ℕ) (a : Axes)
    (h : s.eventFrame = some ⟨dev, .axes a⟩) :
    putAxes s dev a = s := by
  cases s
  simp_all [putAxes]

/-- Claim C5: sub-events arriving while a frame is pending obey the merge
discipline — (1) a non-Axes sub-event (Enter, Leave, Motion, Button) is dropped
and the state is unchanged; (2) an Axes-kind sub-event (axis, axis_stop,
axis_value120, axis_source) is dropped when the pending frame holds a non-axes
variant; (3) an Axes-kind merge whose target optional field is already set drops
the new value and keeps the first (state unchanged). -/
theorem pendingFrame_merge_discipline :
    (∀ (s : AppState) (pd n1 n2 n3 n4 : ℕ) (x y : ℚ) (ef : EventFrame),
        s.eventFrame = some ef →
          onEnter s pd n1 n2 x y = s ∧ onLeave s pd n1 n2 = s ∧
          onMotion s pd n3 x y = s ∧ onButton s pd n1 n3 n4 n2 = s) ∧
    (∀ (s : AppState) (pd t axisType src : ℕ) (v : ℚ) (n : ℤ) (ef : EventFrame),
        s.eventFrame = some ef → (∀ a : Axes, ef.info ≠ .axes a) →
          onAxis s pd t axisType v = s ∧ onAxisStop s pd t axisType = s ∧
          onAxisValue120 s pd axisType n = s ∧ onAxisSource s pd src = s) ∧
    (∀ (s : AppState) (pd t axisType src dev : ℕ) (v : ℚ) (n : ℤ) (a : Axes),
        s.eventFrame = some ⟨dev, .axes a⟩ →
          (((getAxis a axisType).getD emptyAxis).value.isSome = true →
              onAxis s pd t axisType v = s) ∧
          (((getAxis a axisType).getD emptyAxis).stoppedTimestampMs.isSome = true →
              onAxisStop s pd t axisType = s) ∧
          (((getAxis a axisType).getD emptyAxis).one120thFractionsOfWheelStep.isSome = true →
              onAxisValue120 s pd axisType n = s) ∧
          (a.axisSource.isSome = true → onAxisSource s pd src = s)) := by
  refine ⟨?_, ?_, ?_⟩
  · intro s pd n1 n2 n3 n4 x y ef h
    refine ⟨?_, ?_, ?_, ?_⟩ <;> simp [onEnter, onLeave, onMotion, onButton, h]
  · intro s pd t axisType src v n ef h hna
    have hs := axesSlot_of_nonAxes s pd ef h hna
    refine ⟨?_, ?_, ?_, ?_⟩ <;>
      simp [onAxis, onAxisStop, onAxisValue120, onAxisSource, hs]
  · intro s pd t axisType src dev v n a h
    have hs := axesSlot_of_axes s pd dev a h
    have hput := putAxes_self s dev a h
    refine ⟨?_, ?_, ?_, ?_⟩ <;> intro hdup <;>
      simp [onAxis, onAxisStop, onAxisValue120, onAxisSource, hs, hdup, hput]

/-- Witness for C5 at concrete inputs: with a Motion frame pending, an Enter and an
axis sub-event are both dropped; with an Axes frame pending whose horizontal axis
fields are set, a second value120 sub-event on the horizontal axis is dropped. -/
theorem pendingFrame_merge_discipline_witness :
    onEnter sampleMotionPending 1 2 10 (7 : ℚ) (8 : ℚ) = sampleMotionPending ∧
    onAxis sampleMotionPending 1 5 0 (1 : ℚ) = sampleMotionPending ∧
    onAxisValue120 sampleAxesPending 1 1 7 = sampleAxesPending :=
  ⟨(pendingFrame_merge_discipline.1 sampleMotionPending 1 2 10 5 0 7 8 _ rfl).1,
   (pendingFrame_merge_discipline.2.1 sampleMotionPending 1 5 0 0 1 0 _ rfl
      (fun a hc => by cases hc)).1,
   (pendingFrame_merge_discipline.2.2 sampleAxesPending 1 0 1 0 1 0 7 _ rfl).2.2.1
      (by decide)⟩

/-- Claim C2: a discrete-step notification of `n` steps is normalized by
multiplying by 120 and handled exactly like a high-resolution (value120) sub-event
of `n * 120` — it is merged into the same `one120thFractionsOfWheelStep` field, so
any subsequently committed frame is identical; and once that field is set on an
axis of the pending frame, a second write (from either a discrete-step or a
high-resolution sub-event) is dropped and the first value wins. -/
theorem discrete_normalized_to_value120 :
    (∀ (s : AppState) (pd axisType : ℕ) (n : ℤ),
        onAxisDiscrete s pd axisType n = onAxisValue120 s pd axisType (n * 120)) ∧
    (∀ (s : AppState) (pd1 pd2 axisType : ℕ) (n : ℤ),
        onFrame (onAxisDiscrete s pd1 axisType n) pd2 =
          onFrame (onAxisValue120 s pd1 axisType (n * 120)) pd2) ∧
    (∀ (s : AppState) (pd axisType : ℕ) (n : ℤ),
        s.eventFrame = none →
        (onAxisDiscrete s pd axisType n).eventFrame =
          some ⟨pd, .axes (setAxis emptyAxes axisType
            { emptyAxis with one120thFractionsOfWheelStep := some (n * 120) })⟩) ∧
    (∀ (s : AppState) (pd axisType dev : ℕ) (n : ℤ) (a : Axes),
        s.eventFrame = some ⟨dev, .axes a⟩ →
        ((getAxis a axisType).getD emptyAxis).one120thFractionsOfWheelStep.isSome = true →
          onAxisValue120 s pd axisType n = s ∧ onAxisDiscrete s pd axisType n = s) := by
  refine ⟨fun s pd axisType n => rfl, fun s pd1 pd2 axisType n => rfl, ?_, ?_⟩
  · intro s pd axisType n h
    simp [onAxisDiscrete, onAxisValue120, axesSlot, h, putAxes, getAxis, emptyAxes, emptyAxis]
  · intro s pd axisType dev n a h hdup
    have hs := axesSlot_of_axes s pd dev a h
    have hput := putAxes_self s dev a h
    constructor <;>
      simp [onAxisDiscrete, onAxisValue120, hs, hdup, hput]

/-- Witness for C2 at concrete inputs: a 2-step discrete sub-event equals a
value120 sub-event of 240; on a frame whose horizontal axis already carries a
value120 datum, both a value120 and a discrete sub-event are dropped. -/
theorem discrete_normalized_to_value120_witness :
    onAxisDiscrete sampleIdle 1 0 2 = onAxisValue120 sampleIdle 1 0 (2 * 120) ∧
    onAxisValue120 sampleAxesPending 1 1 7 = sampleAxesPending ∧
    onAxisDiscrete sampleAxesPending 1 1 7 = sampleAxesPending :=
  ⟨discrete_normalized_to_value120.1 sampleIdle 1 0 2,
   (discrete_normalized_to_value120.2.2.2 sampleAxesPending 1 1 1 7 _ rfl (by decide)).1,
   (discrete_normalized_to_value120.2.2.2 sampleAxesPending 1 1 1 7 _ rfl (by decide)).2⟩

/-- Claim C3: a committed Motion frame drags if and only if the drag conditions
hold — (1) with a known prior position, exactly one pressed button which is the
primary one, and a non-zero delta, the content state is replaced by
`movedFor(-dx, -dy)` and the content is marked changed; (2) with more than one
pressed button or with the primary button not pressed, only the stored position
changes; (3) in every case the stored pointer position becomes `(x, y)`. -/
theorem motion_drag_semantics :
    (∀ (s : AppState) (t : ℕ) (x y px py : ℚ),
        s.positionOnMainWindowSurface = some (px, py) →
        IDX_LMB ∈ s.buttonsPressedState →
        s.buttonsPressedState.card = 1 →
        (x - px ≠ 0 ∨ y - py ≠ 0) →
        handleFrame s (.motion t x y) =
          { s with contentState := s.contentState.movedFor (-(x - px)) (-(y - py))
                 , mustBeRedrawn := true
                 , positionOnMainWindowSurface := some (x, y) }) ∧
    (∀ (s : AppState) (t : ℕ) (x y : ℚ),
        (1 < s.buttonsPressedState.card ∨ IDX_LMB ∉ s.buttonsPressedState) →
        handleFrame s (.motion t x y) =
          { s with positionOnMainWindowSurface := some (x, y) }) ∧
    (∀ (s : AppState) (t : ℕ) (x y : ℚ),
        (handleFrame s (.motion t x y)).positionOnMainWindowSurface = some (x, y)) := by
  refine ⟨?_, ?_, ?_⟩
  · intro s t x y px py hpos hlmb hcard hnz
    simp only [handleFrame, hpos, Option.elim_some, if_pos (And.intro hlmb hcard),
      if_pos hnz]
  · intro s t x y hnd
    have hc : ¬ (IDX_LMB ∈ s.buttonsPressedState ∧ s.buttonsPressedState.card = 1) := by
      rcases hnd with h | h
      · exact fun hcc => by omega
      · exact fun hcc => h hcc.1
    rcases hpos : s.positionOnMainWindowSurface with _ | cur
    · simp [handleFrame, hpos]
    · simp [handleFrame, hpos, if_neg hc]
  · intro s t x y
    rcases hpos : s.positionOnMainWindowSurface with _ | cur
    · simp [handleFrame, hpos]
    · simp only [handleFrame, hpos, Option.elim_some]

/-- Witness for C3 at the spec's scenario: pointer at (100, 200) with only the
primary button pressed, Motion to (110, 205) applies `movedFor(-10, -5)` and marks
the content changed; a Motion with the primary button not pressed only moves the
stored position. -/
theorem motion_drag_semantics_witness :
    handleFrame sampleDragReady (.motion 1 110 205) =
      { sampleDragReady with
          contentState := sampleDragReady.contentState.movedFor (-(110 - 100)) (-(205 - 200))
        , mustBeRedrawn := true
        , positionOnMainWindowSurface := some (110, 205) } ∧
    handleFrame sampleIdle (.motion 1 3 4) =
      { sampleIdle with positionOnMainWindowSurface := some (3, 4) } :=
  ⟨motion_drag_semantics.1 sampleDragReady 1 110 205 100 200 rfl (by decide) (by decide)
      (Or.inl (by norm_num)),
   motion_drag_semantics.2.1 sampleIdle 1 3 4 (Or.inr (by decide))⟩

/-- Helper: the interpreter never touches the pending-frame slot. -/
theorem handleFrame_eventFrame (s : AppState) (fi : FrameInfo) :
    (handleFrame s fi).eventFrame = s.eventFrame := by
  cases fi with
  | enter evSerial surf px py =>
      simp only [handleFrame]
      split_ifs <;> rfl
  | leave evSerial surf =>
      simp only [handleFrame]
      split_ifs <;> rfl
  | motion t x y =>
      rcases hpos : s.positionOnMainWindowSurface with _ | cur
      · simp [handleFrame, hpos]
      · simp only [handleFrame, hpos, Option.elim_some]
        split_ifs <;> rfl
  | button a b c d =>
      simp only [handleFrame]
      split_ifs <;> rfl
  | axes a =>
      simp only [handleFrame]
      split_ifs <;> rfl

/-- Claim C4: the commit (`wl_pointer::frame`) signal — (1) with no frame pending
it is a no-op and the interpreter is not invoked; (2) if the pending frame's
source device differs from the signal's device or from the currently bound device,
the frame is discarded without invoking the interpreter; (3) on success the frame
is handed to the interpreter; (4) in every case the pending-frame slot is empty
afterwards. The second component of `onFrame` records the frame handed to the
interpreter. -/
theorem commit_discipline :
    (∀ (s : AppState) (pd : ℕ), s.eventFrame = none → onFrame s pd = (s, none)) ∧
    (∀ (s : AppState) (pd : ℕ) (ef : EventFrame),
        s.eventFrame = some ef →
        (pd ≠ ef.sourceDev ∨ s.wlDevice ≠ some ef.sourceDev) →
        onFrame s pd = ({ s with eventFrame := none }, none)) ∧
    (∀ (s : AppState) (pd : ℕ) (ef : EventFrame),
        s.eventFrame = some ef → pd = ef.sourceDev → s.wlDevice = some ef.sourceDev →
        onFrame s pd = (handleFrame { s with eventFrame := none } ef.info, some ef.info)) ∧
    (∀ (s : AppState) (pd : ℕ), (onFrame s pd).1.eventFrame = none) := by
  refine ⟨?_, ?_, ?_, ?_⟩
  · intro s pd h
    simp [onFrame, h]
  · intro s pd ef h hmis
    simp only [onFrame, h, Option.elim_some]
    rcases hmis with hm | hm
    · rw [if_pos hm]
    · by_cases h1 : pd ≠ ef.sourceDev
      · rw [if_pos h1]
      · rw [if_neg h1, if_pos hm]
  · intro s pd ef h hpd hwl
    simp only [onFrame, h, Option.elim_some]
    rw [if_neg (not_not_intro hpd), if_neg (not_not_intro hwl)]
  · intro s pd
    rcases h : s.eventFrame with _ | ef
    · simp [onFrame, h]
    · simp only [onFrame, h, Option.elim_some]
      split_ifs <;> simp [handleFrame_eventFrame]

/-- Witness for C4 at concrete inputs: an empty commit is a no-op with no
interpreter call; a commit from a different device discards the pending frame
without an interpreter call; a matching commit hands the frame over; all leave the
slot empty. -/
theorem commit_discipline_witness :
    onFrame sampleIdle 1 = (sampleIdle, none) ∧
    onFrame sampleMotionPending 2 = ({ sampleMotionPending with eventFrame := none }, none) ∧
    onFrame sampleMotionPending 1 =
      (handleFrame { sampleMotionPending with eventFrame := none } (.motion 5 3 4),
       some (.motion 5 3 4)) :=
  ⟨commit_discipline.1 sampleIdle 1 rfl,
   commit_discipline.2.1 sampleMotionPending 2 _ rfl (Or.inl (by decide)),
   commit_discipline.2.2.1 sampleMotionPending 1 _ rfl rfl rfl⟩

/-- Claim C10: an axis-carrying sub-event (axis magnitude, axis stop, or
value120/discrete step) whose axis-type code is neither the vertical-scroll code
nor the horizontal-scroll code is not rejected — it is handled exactly as if it
carried the horizontal-scroll code. -/
theorem nonScroll_axis_treated_as_horizontal :
    ∀ (s : AppState) (pd t axisType : ℕ) (v : ℚ) (n : ℤ),
      axisType ≠ WL_POINTER_AXIS_VERTICAL_SCROLL →
      axisType ≠ WL_POINTER_AXIS_HORIZONTAL_SCROLL →
      onAxis s pd t axisType v = onAxis s pd t WL_POINTER_AXIS_HORIZONTAL_SCROLL v ∧
      onAxisStop s pd t axisType = onAxisStop s pd t WL_POINTER_AXIS_HORIZONTAL_SCROLL ∧
      onAxisValue120 s pd axisType n =
        onAxisValue120 s pd WL_POINTER_AXIS_HORIZONTAL_SCROLL n := by
  intro s pd t axisType v n hv _hh
  have hhv : WL_POINTER_AXIS_HORIZONTAL_SCROLL ≠ WL_POINTER_AXIS_VERTICAL_SCROLL := by decide
  have hga : ∀ a : Axes, getAxis a axisType = getAxis a WL_POINTER_AXIS_HORIZONTAL_SCROLL := by
    intro a
    simp [getAxis, hv, hhv]
  have hsa : ∀ (a : Axes) (ax : Axis),
      setAxis a axisType ax = setAxis a WL_POINTER_AXIS_HORIZONTAL_SCROLL ax := by
    intro a ax
    simp [setAxis, hv, hhv]
  refine ⟨?_, ?_, ?_⟩ <;> simp only [onAxis, onAxisStop, onAxisValue120, hga, hsa]

/-- Witness for C10 at the concrete axis-type code 42 (neither 0 nor 1). -/
theorem nonScroll_axis_treated_as_horizontal_witness :
    onAxis sampleIdle 1 9 42 (5 : ℚ) = onAxis sampleIdle 1 9 WL_POINTER_AXIS_HORIZONTAL_SCROLL 5 ∧
    onAxisStop sampleIdle 1 9 42 = onAxisStop sampleIdle 1 9 WL_POINTER_AXIS_HORIZONTAL_SCROLL ∧
    onAxisValue120 sampleIdle 1 42 7 =
      onAxisValue120 sampleIdle 1 WL_POINTER_AXIS_HORIZONTAL_SCROLL 7 :=
  nonScroll_axis_treated_as_horizontal sampleIdle 1 9 42 5 7 (by decide) (by decide)

/-- Helper: in every reachable render-loop state, readiness implies that no frame
callback registration is outstanding. -/
theorem reachable_ready_no_pending :
    ∀ s, ReachableRL s → s.readyToBeRedrawn = true → s.pendingCallback = none := by
  intro s h
  induction h with
  | init => intro _; rfl
  | step s e hr ih =>
      cases e with
      | dispatched c m =>
          intro hr
          exact ih hr
      | loopIteration cb =>
          simp only [renderStep]
          split_ifs with hg
          · intro hr
            simp at hr
          · exact ih
      | surfaceFrameSignal cb =>
          simp only [renderStep]
          split_ifs with hg
          · intro _
            rfl
          · exact ih

/-- Claim C6: in every reachable state of the render loop at most one presentation
readiness (frame callback) registration is outstanding — (1) readiness (the
precondition of a new submission) implies no registration is outstanding; (2) when
the redraw branch fires, there was no outstanding registration and afterwards
exactly the freshly registered callback is outstanding; (3) a readiness signal
whose callback identity does not match the outstanding registration changes no
state. -/
theorem single_outstanding_frame_callback :
    (∀ s, ReachableRL s → s.readyToBeRedrawn = true → s.pendingCallback = none) ∧
    (∀ s cb, ReachableRL s →
        (s.mustBeRedrawn = true ∨ s.contentState ≠ s.lastRenderedState) →
        s.readyToBeRedrawn = true →
        s.pendingCallback = none ∧
        (renderStep s (.loopIteration cb)).pendingCallback = some cb) ∧
    (∀ s cb, some cb ≠ s.pendingCallback → renderStep s (.surfaceFrameSignal cb) = s) := by
  refine ⟨reachable_ready_no_pending, ?_, ?_⟩
  · intro s cb hreach hg hr
    refine ⟨reachable_ready_no_pending s hreach hr, ?_⟩
    simp [renderStep, if_pos (And.intro hg hr)]
  · intro s cb hne
    simp [renderStep, if_neg hne]

/-- Witness for C6 at the initial state: it is reachable, the implicit initial
damage request makes the redraw branch fire, no registration is outstanding before
and exactly the new callback is outstanding after; a mismatched readiness signal
changes nothing. -/
theorem single_outstanding_frame_callback_witness :
    (initRenderLoopState.pendingCallback = none ∧
      (renderStep initRenderLoopState (.loopIteration 5)).pendingCallback = some 5) ∧
    renderStep initRenderLoopState (.surfaceFrameSignal 3) = initRenderLoopState :=
  ⟨single_outstanding_frame_callback.2.1 initRenderLoopState 5 ReachableRL.init
      (Or.inl rfl) rfl,
   single_outstanding_frame_callback.2.2 initRenderLoopState 3 (by decide)⟩

end WaylandInputWindow
